import Mathlib

/-!
Verification of the GUIEngine widget layer (src/src/gui/widget.hpp).

Shallow embedding conventions:
* C++ enums become Lean inductives; where the numeric values matter they are
  recorded by an explicit `toInt` function matching the header.
* A `Widget` is its scalar fields plus its `m_children` list (a tree).  The
  `m_parent` back-pointer is not stored in the tree (the tree shape already
  determines it); its role in event delivery is modelled by the dispatch
  function below.  The `m_element` engine handle and the XML-reading helpers
  are external collaborators and are out of scope, per the spec.
* `std::map<Property, std::string>` is modelled as `Property → Option String`;
  `map[k] = v` becomes `mapStore`, read-only lookup (`find`) becomes `mapFind`,
  and the mutating `operator[]` (which default-inserts an empty string for a
  missing key and returns a reference to it) becomes `mapBracket`, returning
  the string together with the possibly-updated map.
* C++ methods are modelled as state transformers returning `result × newState`
  when their mutation behaviour is at issue; indexing that C++ leaves
  unchecked is modelled with `Option` so that out-of-bounds is observable.
-/

namespace GUIEngine

/-- WidgetType enum from widget.hpp: the tag stored in every widget's
    m_type field. -/
inductive WidgetType where
  | WTYPE_NONE
  | WTYPE_RIBBON
  | WTYPE_SPINNER
  | WTYPE_BUTTON
  | WTYPE_GAUGE
  | WTYPE_ICON_BUTTON
  | WTYPE_CHECKBOX
  | WTYPE_LABEL
  | WTYPE_MODEL
  | WTYPE_SPACER
  | WTYPE_DIV
  | WTYPE_RIBBON_GRID
deriving DecidableEq, Repr

/-- Numeric values of the WidgetType enumerators (WTYPE_NONE = -1, the rest
    consecutive from 0), as declared in the header. -/
def WidgetType.toInt : WidgetType → Int
  | .WTYPE_NONE => -1
  | .WTYPE_RIBBON => 0
  | .WTYPE_SPINNER => 1
  | .WTYPE_BUTTON => 2
  | .WTYPE_GAUGE => 3
  | .WTYPE_ICON_BUTTON => 4
  | .WTYPE_CHECKBOX => 5
  | .WTYPE_LABEL => 6
  | .WTYPE_MODEL => 7
  | .WTYPE_SPACER => 8
  | .WTYPE_DIV => 9
  | .WTYPE_RIBBON_GRID => 10

/-- Property enum from widget.hpp: the keys of the XML property map
    (PROP_ID = 100, the rest consecutive). -/
inductive Property where
  | PROP_ID
  | PROP_PROPORTION
  | PROP_WIDTH
  | PROP_HEIGHT
  | PROP_CHILD_WIDTH
  | PROP_CHILD_HEIGHT
  | PROP_WORD_WRAP
  | PROP_GROW_WITH_TEXT
  | PROP_X
  | PROP_Y
  | PROP_LAYOUT
  | PROP_ALIGN
  | PROP_TEXT
  | PROP_ICON
  | PROP_TEXT_ALIGN
  | PROP_MIN_VALUE
  | PROP_MAX_VALUE
deriving DecidableEq, Repr

/-- Numeric values of the Property enumerators, as declared in the header. -/
def Property.toInt : Property → Int
  | .PROP_ID => 100
  | .PROP_PROPORTION => 101
  | .PROP_WIDTH => 102
  | .PROP_HEIGHT => 103
  | .PROP_CHILD_WIDTH => 104
  | .PROP_CHILD_HEIGHT => 105
  | .PROP_WORD_WRAP => 106
  | .PROP_GROW_WITH_TEXT => 107
  | .PROP_X => 108
  | .PROP_Y => 109
  | .PROP_LAYOUT => 110
  | .PROP_ALIGN => 111
  | .PROP_TEXT => 112
  | .PROP_ICON => 113
  | .PROP_TEXT_ALIGN => 114
  | .PROP_MIN_VALUE => 115
  | .PROP_MAX_VALUE => 116

/-- RibbonType enum from widget.hpp. -/
inductive RibbonType where
  | RIBBON_COMBO
  | RIBBON_TOOLBAR
  | RIBBON_TABS
deriving DecidableEq, Repr

/-- Model of std::map<Property, std::string>: a partial mapping from keys to
    stored strings. -/
def PropMap : Type := Property → Option String

/-- The empty property map (a freshly default-constructed std::map). -/
def PropMap.empty : PropMap := fun _ => none

/-- Model of the assignment `m[k] = v` on a std::map: after it, k maps to v
    and every other key is untouched. -/
def mapStore (m : PropMap) (k : Property) (v : String) : PropMap :=
  fun k2 => if k2 = k then some v else m k2

/-- Model of a read-only lookup (std::map::find / reading through a const
    map): the stored value, if any. -/
def mapFind (m : PropMap) (k : Property) : Option String := m k

/-- Model of the mutating std::map::operator[]: if k is present its value is
    returned and the map is unchanged; if k is absent, a default-constructed
    (empty) string is inserted under k and returned. -/
def mapBracket (m : PropMap) (k : Property) : String × PropMap :=
  match m k with
  | some s => (s, m)
  | none => ("", mapStore m k "")

/-- Scalar fields of the Widget base class (widget.hpp): selection flag,
    type tag, coordinates, numeric id, and the XML property map. -/
structure WidgetFields where
  m_selected : Bool
  m_type : WidgetType
  x : Int
  y : Int
  w : Int
  h : Int
  id : Int
  m_properties : PropMap

/-- A Widget is its scalar fields plus the m_children list (ptr_vector of
    child widgets). -/
inductive Widget where
  | mk (fields : WidgetFields) (m_children : List Widget)

/-- Scalar fields of a widget. -/
def Widget.fields : Widget → WidgetFields
  | .mk f _ => f

/-- The m_children list of a widget. -/
def Widget.m_children : Widget → List Widget
  | .mk _ c => c

/-- The m_selected field of a widget. -/
def Widget.m_selected (w : Widget) : Bool := w.fields.m_selected

/-- The m_type field of a widget. -/
def Widget.m_type (w : Widget) : WidgetType := w.fields.m_type

/-- The m_properties map of a widget. -/
def Widget.m_properties (w : Widget) : PropMap := w.fields.m_properties

/-- Replace the m_properties map of a widget (all other fields and the
    children untouched). -/
def Widget.setProperties : Widget → PropMap → Widget
  | .mk f c, m => .mk { f with m_properties := m } c

/-- Replace the m_children list of a widget (all fields untouched). -/
def Widget.setChildren : Widget → List Widget → Widget
  | .mk f _, c => .mk f c

/-- Store a string under a Property key in a widget's m_properties map
    (the write `widget.m_properties[key] = value` done while reading the
    XML layout). -/
def Widget.setProperty (w : Widget) (k : Property) (v : String) : Widget :=
  w.setProperties (mapStore w.m_properties k v)

/-- Read the string stored under a Property key of a widget's m_properties
    map, if any. -/
def Widget.getProperty (w : Widget) (k : Property) : Option String :=
  mapFind w.m_properties k

/-- Widget::isSelected, widget.hpp line 140:
    `bool isSelected() const { return m_selected; }` — modelled as a state
    transformer so that (non-)mutation is part of the statement. -/
def Widget.isSelected (w : Widget) : Bool × Widget := (w.m_selected, w)

/-- Default virtual Widget::rightPressed, widget.hpp: `{ return false; }`. -/
def Widget.rightPressed (_w : Widget) : Bool := false

/-- Default virtual Widget::leftPressed, widget.hpp: `{ return false; }`. -/
def Widget.leftPressed (_w : Widget) : Bool := false

/-- Default virtual Widget::transmitEvent, widget.hpp:
    `{ return true; }` — the transmitted event is always forwarded. -/
def Widget.transmitEvent (_w : Widget) (_child : Widget) (_originator : String) : Bool := true

/-- Default virtual Widget::mouseHovered, widget.hpp: `{ return false; }`. -/
def Widget.mouseHovered (_w : Widget) (_child : Widget) : Bool := false

/-- Outcome of delivering one input event: whether the parent's
    transmitEvent was invoked, and whether the main event handler was
    notified. -/
structure DispatchTrace where
  parentTransmitCalled : Bool
  mainHandlerNotified : Bool
deriving DecidableEq, Repr

/-- Modelled from the spec: the input-event delivery code (widget.cpp and
    the engine event handler) is not among the sources; per the spec and the
    m_parent documentation in widget.hpp, events on a widget whose m_parent
    is NULL go straight to the main event handler, while events on a widget
    whose m_parent is set are first passed to m_parent->transmitEvent, and
    the boolean it returns decides whether the main event handler is then
    notified.  The argument is the widget's m_parent together with the
    result its transmitEvent returns for this event (`none` for a NULL
    m_parent). -/
def dispatchInputEvent (parentTransmitResult : Option Bool) : DispatchTrace :=
  match parentTransmitResult with
  | none => { parentTransmitCalled := false, mainHandlerNotified := true }
  | some b => { parentTransmitCalled := true, mainHandlerNotified := b }

/-- The eight concrete Widget subclasses that the spec lists, declared in
    widget.hpp: ButtonWidget, LabelWidget, CheckBoxWidget, GaugeWidget,
    SpinnerWidget, IconButtonWidget, RibbonWidget, RibbonGridWidget. -/
inductive SubclassKind where
  | buttonWidget
  | labelWidget
  | checkBoxWidget
  | gaugeWidget
  | spinnerWidget
  | iconButtonWidget
  | ribbonWidget
  | ribbonGridWidget
deriving DecidableEq, Repr

/-- The WidgetType tag belonging to each concrete subclass kind. -/
def SubclassKind.widgetType : SubclassKind → WidgetType
  | .buttonWidget => .WTYPE_BUTTON
  | .labelWidget => .WTYPE_LABEL
  | .checkBoxWidget => .WTYPE_CHECKBOX
  | .gaugeWidget => .WTYPE_GAUGE
  | .spinnerWidget => .WTYPE_SPINNER
  | .iconButtonWidget => .WTYPE_ICON_BUTTON
  | .ribbonWidget => .WTYPE_RIBBON
  | .ribbonGridWidget => .WTYPE_RIBBON_GRID

/-- Modelled from the spec: the subclass constructors live in widget.cpp,
    which is not among the sources; per the spec each subclass wraps one
    element kind, so its constructor tags the instance with its kind's
    WidgetType in m_type.  Constructing a widget of a given subclass kind
    from its scalar data and children sets m_type to that kind's tag. -/
def mkWidgetOfKind (k : SubclassKind) (f : WidgetFields) (children : List Widget) : Widget :=
  .mk { f with m_type := k.widgetType } children

/-- RibbonWidget (widget.hpp): the Widget base part plus the subclass
    fields m_selection and m_ribbon_type. -/
structure RibbonWidget where
  base : Widget
  m_selection : Int
  m_ribbon_type : RibbonType

/-- Replace the Widget base part of a ribbon (the subclass fields
    m_selection and m_ribbon_type untouched). -/
def RibbonWidget.setBase (r : RibbonWidget) (b : Widget) : RibbonWidget :=
  { r with base := b }

/-- RibbonWidget::getSelection, widget.hpp:
    `int getSelection() const { return m_selection; }` — modelled as a state
    transformer so that (non-)mutation is part of the statement. -/
def RibbonWidget.getSelection (r : RibbonWidget) : Int × RibbonWidget :=
  (r.m_selection, r)

/-- RibbonWidget::getRibbonType, widget.hpp:
    `RibbonType getRibbonType() const { return m_ribbon_type; }` — modelled
    as a state transformer so that (non-)mutation is part of the
    statement. -/
def RibbonWidget.getRibbonType (r : RibbonWidget) : RibbonType × RibbonWidget :=
  (r.m_ribbon_type, r)

/-- RibbonWidget::getSelectionName, widget.hpp:
    `return m_children[m_selection].m_properties[PROP_ID];`
    The unchecked ptr_vector indexing is modelled with Option (none exactly
    when m_selection is out of bounds), and the mutating map operator[] with
    mapBracket, so the call returns the looked-up string together with the
    post-state of the ribbon. -/
def RibbonWidget.getSelectionName (r : RibbonWidget) : Option (String × RibbonWidget) :=
  if h : 0 ≤ r.m_selection ∧ r.m_selection.toNat < r.base.m_children.length then
    let child := r.base.m_children.get ⟨r.m_selection.toNat, h.2⟩
    let res := mapBracket child.m_properties Property.PROP_ID
    let newChildren := r.base.m_children.set r.m_selection.toNat (child.setProperties res.2)
    some (res.1, { r with base := r.base.setChildren newChildren })
  else
    none

/-- ItemDescription struct from widget.hpp. -/
structure ItemDescription where
  m_user_name : String
  m_code_name : String
  m_sshot_file : String
deriving DecidableEq, Repr

/-- RibbonGridWidget (widget.hpp): the Widget base part plus the subclass
    fields — the item list, the scroll/paging bookkeeping and the label
    flag.  The m_rows, m_left_widget and m_right_widget members are
    reference pointers into m_children and the m_label member is an engine
    handle; they carry no state of their own here. -/
structure RibbonGridWidget where
  base : Widget
  m_items : List ItemDescription
  m_scroll_offset : Int
  m_needed_cols : Int
  m_col_amount : Int
  m_has_label : Bool

/-- Modelled from the spec: RibbonGridWidget::scroll is implemented in
    widget.cpp, which is not among the sources; per the spec, ribbon-grid
    scrolling/paging is simple bookkeeping that moves which page of items is
    displayed — it shifts the scroll offset by x_delta and touches nothing
    else, in particular not the stored item list. -/
def RibbonGridWidget.scroll (g : RibbonGridWidget) (x_delta : Int) : RibbonGridWidget :=
  { g with m_scroll_offset := g.m_scroll_offset + x_delta }

/-- RibbonGridWidget::addItem, widget.hpp declaration: appends an
    ItemDescription built from the three strings to m_items. -/
def RibbonGridWidget.addItem (g : RibbonGridWidget)
    (user_name code_name image_file : String) : RibbonGridWidget :=
  { g with m_items := g.m_items ++
      [{ m_user_name := user_name, m_code_name := code_name,
         m_sshot_file := image_file }] }

end GUIEngine

namespace GUIEngine

/- Helper lemmas about the widget record operations. -/

theorem m_properties_setProperties (w : Widget) (m : PropMap) :
    (w.setProperties m).m_properties = m := by
  cases w; rfl

theorem m_children_setChildren (w : Widget) (c : List Widget) :
    (w.setChildren c).m_children = c := by
  cases w; rfl

theorem setProperty_getProperty_eq (w : Widget) (k : Property) (v : String) :
    (w.setProperty k v).getProperty k = some v := by
  cases w
  simp [Widget.setProperty, Widget.getProperty, Widget.setProperties,
        Widget.m_properties, Widget.fields, mapFind, mapStore]

theorem setProperty_getProperty_ne (w : Widget) (k k2 : Property) (v : String)
    (hne : k2 ≠ k) :
    (w.setProperty k v).getProperty k2 = w.getProperty k2 := by
  cases w
  simp [Widget.setProperty, Widget.getProperty, Widget.setProperties,
        Widget.m_properties, Widget.fields, mapFind, mapStore, hne]

/-- C1: for a widget whose m_parent is non-NULL, an input event on the widget
    is not delivered straight to the main event handler: the parent's
    transmitEvent is invoked first, and the boolean it returns is exactly
    whether the main event handler is then notified. -/
theorem c1_parent_transmit_decides (b : Bool) :
    (dispatchInputEvent (some b)).parentTransmitCalled = true ∧
    (dispatchInputEvent (some b)).mainHandlerNotified = b :=
  ⟨rfl, rfl⟩

/-- C2: there is one concrete Widget subclass per element kind the spec lists
    (buttons, labels, checkboxes, gauges, spinners, icon buttons, ribbons,
    ribbon grids); each kind has its own WidgetType tag (the kind-to-tag map
    is injective, so the tags are pairwise distinct), and a widget instance
    constructed as a given subclass carries exactly that kind's tag in its
    m_type field. -/
theorem c2_subclass_type_tags :
    (∀ (k : SubclassKind) (f : WidgetFields) (c : List Widget),
        (mkWidgetOfKind k f c).m_type = k.widgetType) ∧
    Function.Injective SubclassKind.widgetType := by
  refine ⟨fun k f c => rfl, fun a b h => ?_⟩
  cases a <;> cases b <;> revert h <;> decide

theorem c2_witness :
    (mkWidgetOfKind .buttonWidget ⟨false, .WTYPE_NONE, 0, 0, 0, 0, 0,
        PropMap.empty⟩ []).m_type = WidgetType.WTYPE_BUTTON ∧
    SubclassKind.buttonWidget = SubclassKind.buttonWidget :=
  ⟨c2_subclass_type_tags.1 .buttonWidget _ _, c2_subclass_type_tags.2 rfl⟩

/-- C3: when a RibbonWidget's current selection index is a valid index into
    its child list and that child's property map stores a string under
    PROP_ID, getSelectionName returns exactly that string. -/
theorem c3_getSelectionName_returns_prop_id (r : RibbonWidget) (s : String)
    (hlo : 0 ≤ r.m_selection)
    (hhi : r.m_selection.toNat < r.base.m_children.length)
    (hid : (r.base.m_children.get ⟨r.m_selection.toNat, hhi⟩).m_properties
             Property.PROP_ID = some s) :
    (r.getSelectionName).map Prod.fst = some s := by
  unfold RibbonWidget.getSelectionName
  rw [dif_pos ⟨hlo, hhi⟩]
  simp only [List.get_eq_getElem] at hid
  simp [mapBracket, hid]

theorem c3_witness :
    ((RibbonWidget.mk
        (.mk ⟨false, .WTYPE_RIBBON, 0, 0, 0, 0, 0, PropMap.empty⟩
          [Widget.mk ⟨false, .WTYPE_BUTTON, 0, 0, 0, 0, 1,
                mapStore PropMap.empty .PROP_ID "kart"⟩ []])
        0 .RIBBON_COMBO).getSelectionName).map Prod.fst = some "kart" :=
  c3_getSelectionName_returns_prop_id _ _ (by decide) (by decide) rfl

/-- C4: storing a string under a Property key in a widget's m_properties map
    and reading that key back returns exactly the stored string, and the
    store leaves the value under every other key of that widget unchanged. -/
theorem c4_property_store_read (w : Widget) (k k2 : Property) (v : String)
    (hne : k2 ≠ k) :
    (w.setProperty k v).getProperty k = some v ∧
    (w.setProperty k v).getProperty k2 = w.getProperty k2 :=
  ⟨setProperty_getProperty_eq w k v, setProperty_getProperty_ne w k k2 v hne⟩

theorem c4_witness :
    ((Widget.mk ⟨false, .WTYPE_NONE, 0, 0, 0, 0, 0, PropMap.empty⟩
        []).setProperty .PROP_WIDTH "100").getProperty .PROP_WIDTH
      = some "100" ∧
    ((Widget.mk ⟨false, .WTYPE_NONE, 0, 0, 0, 0, 0, PropMap.empty⟩
        []).setProperty .PROP_WIDTH "100").getProperty .PROP_HEIGHT
      = (Widget.mk ⟨false, .WTYPE_NONE, 0, 0, 0, 0, 0, PropMap.empty⟩
          []).getProperty .PROP_HEIGHT :=
  c4_property_store_read _ _ _ _ (by decide)

/-- C5: scroll(x_delta) only moves the scroll offset (the displayed page):
    the stored item list m_items — its length, its order, and the user name,
    code name and screenshot file of every item — is unchanged, as is every
    other field of the ribbon grid. -/
theorem c5_scroll_frame (g : RibbonGridWidget) (x_delta : Int) :
    (g.scroll x_delta).m_items = g.m_items ∧
    (g.scroll x_delta).m_items.length = g.m_items.length ∧
    (g.scroll x_delta).m_items.map ItemDescription.m_user_name
      = g.m_items.map ItemDescription.m_user_name ∧
    (g.scroll x_delta).m_items.map ItemDescription.m_code_name
      = g.m_items.map ItemDescription.m_code_name ∧
    (g.scroll x_delta).m_items.map ItemDescription.m_sshot_file
      = g.m_items.map ItemDescription.m_sshot_file ∧
    (g.scroll x_delta).m_scroll_offset = g.m_scroll_offset + x_delta ∧
    (g.scroll x_delta).base = g.base ∧
    (g.scroll x_delta).m_needed_cols = g.m_needed_cols ∧
    (g.scroll x_delta).m_col_amount = g.m_col_amount ∧
    (g.scroll x_delta).m_has_label = g.m_has_label :=
  ⟨rfl, rfl, rfl, rfl, rfl, rfl, rfl, rfl, rfl, rfl⟩

/-- C7: a widget that does not override the base-class virtual handlers has
    rightPressed, leftPressed and mouseHovered return false (the main event
    handler is not notified), while transmitEvent returns true (a
    transmitted event is always forwarded to the main event handler). -/
theorem c7_default_handlers (w child : Widget) (originator : String) :
    w.rightPressed = false ∧
    w.leftPressed = false ∧
    w.mouseHovered child = false ∧
    w.transmitEvent child originator = true :=
  ⟨rfl, rfl, rfl, rfl⟩

/-- C8: the const accessors are pure reads: isSelected returns exactly
    m_selected, getSelection exactly m_selection, getRibbonType exactly
    m_ribbon_type, and each leaves the widget state (all its fields and
    children) unchanged. -/
theorem c8_const_accessors_pure (w : Widget) (r : RibbonWidget) :
    w.isSelected.1 = w.m_selected ∧ w.isSelected.2 = w ∧
    r.getSelection.1 = r.m_selection ∧ r.getSelection.2 = r ∧
    r.getRibbonType.1 = r.m_ribbon_type ∧ r.getRibbonType.2 = r :=
  ⟨rfl, rfl, rfl, rfl, rfl, rfl⟩

/-- C9: getSelectionName succeeds exactly when 0 <= m_selection < number of
    children (otherwise the child indexing is out of bounds), and it is not
    a pure accessor: when the selected child's property map has no PROP_ID
    entry, the call returns the empty string and the post-state stores an
    empty string under PROP_ID in that child's m_properties. -/
theorem c9_getSelectionName_safety (r : RibbonWidget) :
    (r.getSelectionName.isSome ↔
      0 ≤ r.m_selection ∧ r.m_selection.toNat < r.base.m_children.length) ∧
    ∀ (hlo : 0 ≤ r.m_selection)
      (hhi : r.m_selection.toNat < r.base.m_children.length),
      (r.base.m_children.get ⟨r.m_selection.toNat, hhi⟩).m_properties
          Property.PROP_ID = none →
      r.getSelectionName = some ("",
        r.setBase (r.base.setChildren
          (r.base.m_children.set r.m_selection.toNat
            ((r.base.m_children.get ⟨r.m_selection.toNat, hhi⟩).setProperties
              (mapStore
                (r.base.m_children.get ⟨r.m_selection.toNat, hhi⟩).m_properties
                Property.PROP_ID ""))))) := by
  constructor
  · constructor
    · intro hs
      by_contra hcon
      unfold RibbonWidget.getSelectionName at hs
      rw [dif_neg hcon] at hs
      simp at hs
    · intro hb
      unfold RibbonWidget.getSelectionName
      rw [dif_pos hb]
      simp
  · intro _hlo hhi hnone
    unfold RibbonWidget.getSelectionName
    rw [dif_pos ⟨_hlo, hhi⟩]
    simp only [List.get_eq_getElem] at hnone
    simp [mapBracket, RibbonWidget.setBase, hnone]

def sampleChildNoId : Widget :=
  .mk ⟨true, .WTYPE_BUTTON, 0, 0, 0, 0, 1, PropMap.empty⟩ []

def sampleRibbonNoId : RibbonWidget :=
  .mk (.mk ⟨false, .WTYPE_RIBBON, 0, 0, 0, 0, 0, PropMap.empty⟩
        [sampleChildNoId]) 0 .RIBBON_COMBO

theorem c9_witness :
    (sampleRibbonNoId.getSelectionName).map Prod.fst = some "" := by
  have h := (c9_getSelectionName_safety sampleRibbonNoId).2
    (by decide) (by decide) rfl
  rw [h]
  rfl

end GUIEngine
